import Mathlib

set_option linter.unusedSectionVars false

/-!
Shallow embedding of the Spendly analytics core (backend/src of the
chu817/Spendly repository) and verification of its specification claims.

Conventions of the embedding:
* Python floats are modelled as elements of a linear ordered field `α`
  (instantiated at `ℚ` for concrete evaluation and at `ℝ` where exact
  square roots are needed); decimal literals such as `1e-10` are the exact
  rationals they denote.
* Timestamps are integers (seconds since the Unix epoch, as produced by
  `dates.astype(np.int64) // 10**9` in `features.py`).  Calendar
  attributes (hour of day, day of week, calendar day, day of month,
  length of month) are derived from the epoch second with the standard
  proleptic-Gregorian conversion, which is what pandas computes.
* `np.log2` and square roots (inside `pandas.Series.std`) are
  transcendental on floats, so the feature extractor is parametrised by
  the functions `log2` and `sqrt`; no claim below depends on their
  values, and theorems quantify over them.
* Python dicts with optional keys are modelled as structures of
  `Option`-valued fields; `d.get(k, 0) or 0` becomes `Option.getD · 0`.
-/

namespace Spendly

/-! ### utils.py -/

/-- `RISK_BANDS` from `utils.py`: `(min_score_inclusive, max_score_inclusive, label)`. -/
def RISK_BANDS : List (ℕ × ℕ × String) :=
  [(0, 25, "Low"), (26, 50, "Medium"), (51, 75, "High"), (76, 100, "Critical")]

/-- The `for lo, hi, label in RISK_BANDS` loop of `get_risk_band`: return the
label of the first band containing the score, else the fallback `"Low"`. -/
def bandLookup {α : Type} [LinearOrderedField α] (score : α) :
    List (ℕ × ℕ × String) → String
  | [] => "Low"
  | (lo, hi, label) :: rest =>
      if (lo : α) ≤ score ∧ score ≤ (hi : α) then label else bandLookup score rest

/-- `get_risk_band` from `utils.py`: clamp the score to `[0, 100]`, then scan
`RISK_BANDS` for the first matching inclusive range, defaulting to `"Low"`. -/
def get_risk_band {α : Type} [LinearOrderedField α] (score : α) : String :=
  bandLookup (max 0 (min 100 score)) RISK_BANDS

/-- `PROFILE_LABELS` from `utils.py`, as the lookup `PROFILE_LABELS.get`. -/
def profileLabelsGet (n : ℕ) (dflt : String) : String :=
  match n with
  | 0 => "Steady spender"
  | 1 => "Late-night spender"
  | 2 => "Impulse burst buyer"
  | 3 => "End-of-month splurger"
  | 4 => "Category-loyal spender"
  | _ => dflt

/-! ### Claim C1 — risk-band boundary table -/

/-- Claim C1 (counterexample): the claimed table says score `25.1 → Medium`,
but `get_risk_band` maps `25.1` to `"Low"`: `25.1` lies in the gap between
the `(0, 25)` and `(26, 50)` bands, matches no range, and hits the default. -/
theorem C1_counterexample : get_risk_band ((251 : ℚ) / 10) ≠ "Medium" := by
  have h : get_risk_band ((251 : ℚ) / 10) = "Low" := by
    rw [get_risk_band,
      min_eq_right (by norm_num : ((251 : ℚ) / 10) ≤ 100),
      max_eq_right (by norm_num : (0 : ℚ) ≤ 251 / 10)]
    simp only [RISK_BANDS, bandLookup]
    rw [if_neg (by push_cast; norm_num), if_neg (by push_cast; norm_num),
      if_neg (by push_cast; norm_num), if_neg (by push_cast; norm_num)]
  rw [h]
  decide

/-- Claim C1 (amended): for every score in `[0, 100]`, `get_risk_band` maps
`[0,25] → Low`, `[26,50] → Medium`, `[51,75] → High`, `[76,100] → Critical`,
with inclusive boundaries, and every score strictly inside one of the gaps
`(25,26)`, `(50,51)`, `(75,76)` matches no band and defaults to `Low`; in
particular `25.1`, `50.1` and `75.1` all map to `Low`, not to the next band
up as the claimed table states. -/
theorem C1_band_table (s : ℚ) (h0 : 0 ≤ s) (h1 : s ≤ 100) :
    (s ≤ 25 → get_risk_band s = "Low") ∧
    (26 ≤ s → s ≤ 50 → get_risk_band s = "Medium") ∧
    (51 ≤ s → s ≤ 75 → get_risk_band s = "High") ∧
    (76 ≤ s → get_risk_band s = "Critical") ∧
    (25 < s → s < 26 → get_risk_band s = "Low") ∧
    (50 < s → s < 51 → get_risk_band s = "Low") ∧
    (75 < s → s < 76 → get_risk_band s = "Low") := by
  have hb : get_risk_band s = bandLookup s RISK_BANDS := by
    rw [get_risk_band, min_eq_right h1, max_eq_right h0]
  simp only [RISK_BANDS, bandLookup, Nat.cast_ofNat, Nat.cast_zero] at hb
  refine ⟨fun h2 => ?_, fun h2 h3 => ?_, fun h2 h3 => ?_, fun h2 => ?_,
      fun h2 h3 => ?_, fun h2 h3 => ?_, fun h2 h3 => ?_⟩ <;> rw [hb]
  · rw [if_pos ⟨h0, h2⟩]
  · rw [if_neg (fun hc => by linarith [hc.2]), if_pos ⟨h2, h3⟩]
  · rw [if_neg (fun hc => by linarith [hc.2]), if_neg (fun hc => by linarith [hc.2]),
      if_pos ⟨h2, h3⟩]
  · rw [if_neg (fun hc => by linarith [hc.2]), if_neg (fun hc => by linarith [hc.2]),
      if_neg (fun hc => by linarith [hc.2]), if_pos ⟨h2, h1⟩]
  · rw [if_neg (fun hc => by linarith [hc.2]), if_neg (fun hc => by linarith [hc.1]),
      if_neg (fun hc => by linarith [hc.1]), if_neg (fun hc => by linarith [hc.1])]
  · rw [if_neg (fun hc => by linarith [hc.2]), if_neg (fun hc => by linarith [hc.2]),
      if_neg (fun hc => by linarith [hc.1]), if_neg (fun hc => by linarith [hc.1])]
  · rw [if_neg (fun hc => by linarith [hc.2]), if_neg (fun hc => by linarith [hc.2]),
      if_neg (fun hc => by linarith [hc.2]), if_neg (fun hc => by linarith [hc.1])]

/-- Claim C1 (witness): the amended table evaluated at the boundary scores. -/
theorem C1_band_table_witness :
    (0 : ℚ) ≤ 251 / 10 ∧ (251 / 10 : ℚ) ≤ 100 ∧ get_risk_band ((251 : ℚ) / 10) = "Low" := by
  refine ⟨by norm_num, by norm_num, ?_⟩
  exact (C1_band_table (251 / 10) (by norm_num) (by norm_num)).2.2.2.2.1
      (by norm_num) (by norm_num)

/-! ### scoring.py — data shapes -/

/-- A feature dict as consumed by `compute_score` (`features.py` output keys);
`none` models a missing key or a `None` value. -/
structure FeatureDict (α : Type) where
  late_night_ratio : Option α
  weekend_ratio : Option α
  hour_entropy : Option α
  spike_intensity : Option α
  burst_ratio_30min : Option α
  max_tx_in_2h : Option α
  eom_spend_ratio : Option α
  eom_count_ratio : Option α
  category_diversity : Option α
  category_concentration : Option α
  tx_count : Option α
  total_spend : Option α
deriving DecidableEq

/-- The calibration dict produced by `fit_score_calibration` (`training.py`). -/
structure Calibration (α : Type) where
  spike_p95 : α
  max_tx_in_2h_p95 : α
  eom_ratio_p95 : α
  hour_entropy_p95 : α
  category_diversity_p95 : α
deriving DecidableEq

/-- The component breakdown returned by `compute_score`. -/
structure ScoreBreakdown (α : Type) where
  spike : α
  burst : α
  eom : α
  timing : α
  category : α
deriving DecidableEq

variable {α : Type} [LinearOrderedField α]

/-- `float(features.get(key, 0) or 0)`: a missing key or a `None`/zero value
becomes `0`. -/
def fget (o : Option α) : α := o.getD 0

/-- `cal.get(key, default)` where `cal = calibration or {}`: `compute_score`
called with `calibration=None` sees the empty dict, hence every default. -/
def calGet (cal : Option (Calibration α)) (field : Calibration α → α) (dflt : α) : α :=
  match cal with
  | none => dflt
  | some c => field c

/-- `_normalize` from `scoring.py`: clamp and scale to `[0, 1]`, returning `0`
whenever `high <= low` so the division is guarded. -/
def _normalize (x low high : α) : α :=
  if high ≤ low then 0 else max 0 (min 1 ((x - low) / (high - low)))

/-- Round-half-to-even on the underlying field, the semantics of Python's
builtin `round` used as `round(score, 1)` in `compute_score`. -/
def roundHalfEven [FloorRing α] (t : α) : ℤ :=
  if t - ⌊t⌋ < 1 / 2 then ⌊t⌋
  else if (1 : α) / 2 < t - ⌊t⌋ then ⌊t⌋ + 1
  else if ⌊t⌋ % 2 = 0 then ⌊t⌋ else ⌊t⌋ + 1

/-- Python's `round(x, 1)`: round `10 * x` half-to-even, then divide by 10. -/
def pyRound1 [FloorRing α] (x : α) : α := (roundHalfEven (10 * x) : α) / 10

/-! ### scoring.py — compute_score

Each local variable of `compute_score` becomes one definition; the
normalization bounds `spike_hi`, …, `diversity_hi` (with their defaults
`5.0, 20.0, 3.0, 4.0, 10.0`) are inlined as `calGet` applications. -/

/-- `spike_n = _normalize(float(features.get("spike_intensity", 0) or 0), 0, spike_hi)`. -/
def spike_n (f : FeatureDict α) (cal : Option (Calibration α)) : α :=
  _normalize (fget f.spike_intensity) 0 (calGet cal Calibration.spike_p95 5)

/-- `burst_n = 0.6 * min(1.0, burst_ratio) + 0.4 * _normalize(min(max_2h, hi), 0, hi)`. -/
def burst_n (f : FeatureDict α) (cal : Option (Calibration α)) : α :=
  0.6 * min 1 (fget f.burst_ratio_30min) +
    0.4 * _normalize (min (fget f.max_tx_in_2h) (calGet cal Calibration.max_tx_in_2h_p95 20))
      0 (calGet cal Calibration.max_tx_in_2h_p95 20)

/-- `eom_n = _normalize(float(max(eom_spend, eom_count)), 0, eom_hi)`. -/
def eom_n (f : FeatureDict α) (cal : Option (Calibration α)) : α :=
  _normalize (max (fget f.eom_spend_ratio) (fget f.eom_count_ratio)) 0
    (calGet cal Calibration.eom_ratio_p95 3)

/-- `timing_n = late * 0.4 + weekend * 0.3 + (1 - ent / max(entropy_hi, 1e-9)) * 0.3`
with `ent = min(entropy_hi, hour_entropy)`. -/
def timing_n (f : FeatureDict α) (cal : Option (Calibration α)) : α :=
  fget f.late_night_ratio * 0.4 + fget f.weekend_ratio * 0.3 +
    (1 - min (calGet cal Calibration.hour_entropy_p95 4) (fget f.hour_entropy) /
        max (calGet cal Calibration.hour_entropy_p95 4) (1 / 10 ^ 9)) * 0.3

/-- `category_n = conc * 0.6 + low_div_score * 0.4` with
`low_div_score = _normalize(div_cap - min(div, div_cap), 0, div_cap)` and
`div_cap = max(3.0, diversity_hi)`. -/
def category_n (f : FeatureDict α) (cal : Option (Calibration α)) : α :=
  fget f.category_concentration * 0.6 +
    _normalize (max 3 (calGet cal Calibration.category_diversity_p95 10) -
        min (fget f.category_diversity) (max 3 (calGet cal Calibration.category_diversity_p95 10)))
      0 (max 3 (calGet cal Calibration.category_diversity_p95 10)) * 0.4

/-- The weighted sum of `compute_score` with the `COMPONENT_WEIGHTS` of
`utils.py` (`spike 0.25, burst 0.25, eom 0.20, timing 0.15, category 0.15`),
times 100, before clamping. -/
def rawScore (f : FeatureDict α) (cal : Option (Calibration α)) : α :=
  (0.25 * spike_n f cal + 0.25 * burst_n f cal + 0.2 * eom_n f cal +
      0.15 * timing_n f cal + 0.15 * category_n f cal) * 100

/-- `compute_score` from `scoring.py`: the rounded clamped score, the component
breakdown, and the risk band of the clamped (unrounded) score. -/
def compute_score [FloorRing α] (f : FeatureDict α) (cal : Option (Calibration α)) :
    α × ScoreBreakdown α × String :=
  (pyRound1 (max 0 (min 100 (rawScore f cal))),
   ⟨spike_n f cal, burst_n f cal, eom_n f cal, timing_n f cal, category_n f cal⟩,
   get_risk_band (max 0 (min 100 (rawScore f cal))))

/-! ### Arithmetic facts about the scoring helpers -/

lemma floor_le_roundHalfEven [FloorRing α] (t : α) : ⌊t⌋ ≤ roundHalfEven t := by
  unfold roundHalfEven
  split_ifs <;> omega

lemma roundHalfEven_le_floor_add_one [FloorRing α] (t : α) : roundHalfEven t ≤ ⌊t⌋ + 1 := by
  unfold roundHalfEven
  split_ifs <;> omega

lemma roundHalfEven_cast_le [FloorRing α] (t : α) : (roundHalfEven t : α) ≤ t + 1 / 2 := by
  have hfl : (⌊t⌋ : α) ≤ t := Int.floor_le t
  unfold roundHalfEven
  split_ifs with h1 h2 h3 <;> push_cast
  · linarith
  · linarith
  · linarith
  · linarith [not_lt.mp h1, not_lt.mp h2]

lemma le_roundHalfEven_cast [FloorRing α] (t : α) : t - 1 / 2 ≤ (roundHalfEven t : α) := by
  have hfl : t < ⌊t⌋ + 1 := Int.lt_floor_add_one t
  unfold roundHalfEven
  split_ifs with h1 h2 h3 <;> push_cast
  · linarith
  · linarith
  · linarith [not_lt.mp h1, not_lt.mp h2]
  · linarith

lemma roundHalfEven_mono [FloorRing α] {s t : α} (h : s ≤ t) :
    roundHalfEven s ≤ roundHalfEven t := by
  have hf : ⌊s⌋ ≤ ⌊t⌋ := Int.floor_mono h
  rcases lt_or_eq_of_le hf with hlt | heq
  · calc roundHalfEven s ≤ ⌊s⌋ + 1 := roundHalfEven_le_floor_add_one s
      _ ≤ ⌊t⌋ := hlt
      _ ≤ roundHalfEven t := floor_le_roundHalfEven t
  · have hcast : ((⌊s⌋ : ℤ) : α) = ((⌊t⌋ : ℤ) : α) := by exact_mod_cast heq
    have hfr : s - (⌊s⌋ : α) ≤ t - (⌊t⌋ : α) := by rw [hcast]; linarith
    unfold roundHalfEven
    split_ifs <;> first | omega | (exfalso; linarith)

lemma pyRound1_mono [FloorRing α] {s t : α} (h : s ≤ t) : pyRound1 s ≤ pyRound1 t := by
  unfold pyRound1
  have h10 : (10 : α) * s ≤ 10 * t := by linarith
  have hc : ((roundHalfEven (10 * s) : ℤ) : α) ≤ ((roundHalfEven (10 * t) : ℤ) : α) := by
    exact_mod_cast roundHalfEven_mono h10
  linarith

lemma pyRound1_mem_Icc [FloorRing α] {x : α} (h0 : 0 ≤ x) (h1 : x ≤ 100) :
    0 ≤ pyRound1 x ∧ pyRound1 x ≤ 100 := by
  have hlb : (0 : ℤ) ≤ roundHalfEven (10 * x) := by
    have hx : (0 : α) ≤ 10 * x := by linarith
    have := Int.floor_nonneg.mpr hx
    linarith [floor_le_roundHalfEven (10 * x)]
  have hub : roundHalfEven (10 * x) ≤ 1000 := by
    have h2 : (roundHalfEven (10 * x) : α) ≤ 10 * x + 1 / 2 := roundHalfEven_cast_le _
    have h3 : (roundHalfEven (10 * x) : α) < ((1001 : ℤ) : α) := by push_cast; linarith
    have := Int.cast_lt.mp h3
    omega
  constructor
  · apply div_nonneg _ (by norm_num)
    exact_mod_cast hlb
  · rw [pyRound1, div_le_iff₀ (by norm_num : (0 : α) < 10)]
    calc (roundHalfEven (10 * x) : α) ≤ ((1000 : ℤ) : α) := by exact_mod_cast hub
      _ = 100 * 10 := by norm_num

lemma get_risk_band_mem (s : α) :
    get_risk_band s ∈ ["Low", "Medium", "High", "Critical"] := by
  rw [get_risk_band]
  simp only [RISK_BANDS, bandLookup]
  split_ifs <;> simp

lemma _normalize_mono {x y lo hi : α} (h : x ≤ y) :
    _normalize x lo hi ≤ _normalize y lo hi := by
  unfold _normalize
  split_ifs with hle
  · exact le_rfl
  · push_neg at hle
    refine max_le_max le_rfl (min_le_min le_rfl ?_)
    have hpos : (0 : α) < hi - lo := by linarith
    exact (div_le_div_iff_of_pos_right hpos).mpr (by linarith)

/-! ### Claim C10 — compute_score is total and guarded -/

/-- The all-missing feature dict (every key absent), used in witnesses. -/
def fdNone : FeatureDict ℚ :=
  ⟨none, none, none, none, none, none, none, none, none, none, none, none⟩

/-- Claim C10: `compute_score` is total beyond well-formed inputs: missing or
`None` feature fields read as `0`, `_normalize` returns `0` whenever
`high ≤ low` (so every division is guarded; the entropy denominator is
additionally floored at `1e-9` inside `timing_n`), and for every feature dict
and every calibration (including absent, zero or negative bounds) the returned
score is clamped to `[0, 100]` and the band is one of the four labels. -/
theorem C10_compute_score_total {β : Type} [LinearOrderedField β] [FloorRing β] :
    (∀ x lo hi : β, hi ≤ lo → _normalize x lo hi = 0) ∧
    ∀ (f : FeatureDict β) (cal : Option (Calibration β)),
      0 ≤ (compute_score f cal).1 ∧ (compute_score f cal).1 ≤ 100 ∧
        (compute_score f cal).2.2 ∈ ["Low", "Medium", "High", "Critical"] := by
  refine ⟨fun x lo hi hle => by unfold _normalize; rw [if_pos hle], fun f cal => ?_⟩
  have hclamp0 : (0 : β) ≤ max 0 (min 100 (rawScore f cal)) := le_max_left _ _
  have hclamp1 : max 0 (min 100 (rawScore f cal)) ≤ 100 :=
    max_le (by norm_num) (min_le_left _ _)
  obtain ⟨hl, hr⟩ := pyRound1_mem_Icc hclamp0 hclamp1
  exact ⟨hl, hr, get_risk_band_mem _⟩

/-- Claim C10 (witness): the guard and the bounds at concrete inputs. -/
theorem C10_compute_score_total_witness :
    _normalize (3 : ℚ) 5 2 = 0 ∧
    0 ≤ (compute_score fdNone (none : Option (Calibration ℚ))).1 ∧
      (compute_score fdNone (none : Option (Calibration ℚ))).1 ≤ 100 ∧
      (compute_score fdNone (none : Option (Calibration ℚ))).2.2 ∈
        ["Low", "Medium", "High", "Critical"] :=
  ⟨C10_compute_score_total.1 3 5 2 (by norm_num), C10_compute_score_total.2 fdNone none⟩

/-! ### Claim C9 — monotonicity in spike_intensity -/

/-- Replace only the `spike_intensity` entry of a feature dict. -/
def setSpike (f : FeatureDict α) (v : Option α) : FeatureDict α :=
  ⟨f.late_night_ratio, f.weekend_ratio, f.hour_entropy, v, f.burst_ratio_30min,
   f.max_tx_in_2h, f.eom_spend_ratio, f.eom_count_ratio, f.category_diversity,
   f.category_concentration, f.tx_count, f.total_spend⟩

/-- Claim C9: for feature dicts agreeing on everything but `spike_intensity`
and any calibration, a larger `spike_intensity` yields a spike breakdown
component and a final score at least as large. -/
theorem C9_spike_monotone {β : Type} [LinearOrderedField β] [FloorRing β]
    (f : FeatureDict β) (cal : Option (Calibration β)) (s₁ s₂ : β) (h : s₁ ≤ s₂) :
    (compute_score (setSpike f (some s₁)) cal).2.1.spike ≤
        (compute_score (setSpike f (some s₂)) cal).2.1.spike ∧
    (compute_score (setSpike f (some s₁)) cal).1 ≤
        (compute_score (setSpike f (some s₂)) cal).1 := by
  have hs : spike_n (setSpike f (some s₁)) cal ≤ spike_n (setSpike f (some s₂)) cal :=
    _normalize_mono h
  constructor
  · exact hs
  · apply pyRound1_mono
    apply max_le_max le_rfl
    apply min_le_min le_rfl
    show (0.25 * spike_n (setSpike f (some s₁)) cal + 0.25 * burst_n f cal +
        0.2 * eom_n f cal + 0.15 * timing_n f cal + 0.15 * category_n f cal) * 100 ≤
      (0.25 * spike_n (setSpike f (some s₂)) cal + 0.25 * burst_n f cal +
        0.2 * eom_n f cal + 0.15 * timing_n f cal + 0.15 * category_n f cal) * 100
    linarith

/-- Claim C9 (witness): the monotonicity applied at spikes `1 ≤ 2`. -/
theorem C9_spike_monotone_witness :
    (1 : ℚ) ≤ 2 ∧
    ((compute_score (setSpike fdNone (some 1)) none).2.1.spike ≤
        (compute_score (setSpike fdNone (some 2)) none).2.1.spike ∧
      (compute_score (setSpike fdNone (some 1)) none).1 ≤
        (compute_score (setSpike fdNone (some 2)) none).1) :=
  ⟨by norm_num, C9_spike_monotone fdNone none 1 2 (by norm_num)⟩

/-! ### features.py — calendar helpers

Timestamps are epoch seconds (`dates.astype(np.int64) // 10**9`); the calendar
attributes pandas derives from them are reconstructed with the standard
proleptic-Gregorian conversion. -/

/-- Epoch-day to civil `(year, month, day)` conversion (proleptic Gregorian),
the calendar underlying pandas `dt.date`, `dt.hour`, `MonthEnd` etc. -/
def civilFromDays (z0 : ℤ) : ℤ × ℤ × ℤ :=
  let z := z0 + 719468
  let era := z.fdiv 146097
  let doe := z - era * 146097
  let yoe := (doe - doe / 1460 + doe / 36524 - doe / 146096) / 365
  let y := yoe + era * 400
  let doy := doe - (365 * yoe + yoe / 4 - yoe / 100)
  let mp := (5 * doy + 2) / 153
  let d := doy - (153 * mp + 2) / 5 + 1
  let m := mp + (if mp < 10 then 3 else -9)
  (if m ≤ 2 then y + 1 else y, m, d)

/-- Gregorian leap year. -/
def isLeapYear (y : ℤ) : Bool := decide (y % 4 = 0 ∧ (y % 100 ≠ 0 ∨ y % 400 = 0))

/-- Number of days in a Gregorian month. -/
def daysInMonth (y m : ℤ) : ℤ :=
  if m = 2 then (if isLeapYear y then 29 else 28)
  else if m = 4 ∨ m = 6 ∨ m = 9 ∨ m = 11 then 30
  else 31

/-- Calendar day (`dates.dt.date` grouping key): floor of the epoch second by 86400. -/
def epochDay (ts : ℤ) : ℤ := ts.fdiv 86400

/-- `dates.dt.hour`: hour of day in `[0, 23]`. -/
def hourOf (ts : ℤ) : ℤ := ts.emod 86400 / 3600

/-- `dates.dt.dayofweek` (Monday = 0): epoch day 0 was a Thursday (= 3). -/
def dowOf (ts : ℤ) : ℤ := (epochDay ts + 3).emod 7

/-- Day of month of a timestamp. -/
def dayOfMonth (ts : ℤ) : ℤ := (civilFromDays (epochDay ts)).2.2

/-- Length of the month a timestamp falls in. -/
def monthLen (ts : ℤ) : ℤ :=
  daysInMonth (civilFromDays (epochDay ts)).1 (civilFromDays (epochDay ts)).2.1

/-- The late-night mask `(hours >= 22) | (hours < 5)` of `compute_features`. -/
def isLateNight (ts : ℤ) : Bool := decide (22 ≤ hourOf ts ∨ hourOf ts < 5)

/-- The weekend mask `weekday >= 5` of `compute_features`. -/
def isWeekend (ts : ℤ) : Bool := decide (5 ≤ dowOf ts)

/-- The end-of-month mask `dates >= (dates + MonthEnd(0)) - Timedelta(days=4)`
of `compute_features`: `MonthEnd(0)` rolls forward to the last day of the
timestamp's month keeping the time of day, so the comparison holds iff the
day of month is at least `monthLen - 4`. -/
def isLast5 (ts : ℤ) : Bool := decide (monthLen ts - 4 ≤ dayOfMonth ts)

/-- First-occurrence deduplication: the key order of `pandas.unique`,
`value_counts` key sets and sorted `groupby` keys. -/
def firstDedup {β : Type} [DecidableEq β] : List β → List β
  | [] => []
  | a :: l => a :: (firstDedup l).filter (fun b => decide (b ≠ a))

/-! ### features.py — compute_features -/

/-- A transaction row as seen by `compute_features`: parsed `purchase_date`
(epoch seconds), `purchase_amount`, and `category_3` (as `str`). -/
structure Txn (α : Type) where
  ts : ℤ
  amount : α
  cat3 : String
deriving DecidableEq

/-- The feature dict produced by `compute_features` (12 fields; the three
Python `int` entries are `ℕ`). -/
structure FeatureVector (α : Type) where
  late_night_ratio : α
  weekend_ratio : α
  hour_entropy : α
  spike_intensity : α
  burst_ratio_30min : α
  max_tx_in_2h : ℕ
  eom_spend_ratio : α
  eom_count_ratio : α
  category_diversity : ℕ
  category_concentration : α
  tx_count : ℕ
  total_spend : α
deriving DecidableEq

/-- The literal `1e-10` used throughout `features.py`. -/
def eps10 : α := 1 / 10 ^ 10

/-- `_empty_features()` from `features.py`. -/
def emptyFeatures : FeatureVector α := ⟨0, 0, 0, 0, 0, 0, 0, 0, 0, 0, 0, 0⟩

/-- The per-column `((col - col.mean()) / (col.std() + 1e-10)).abs().max()` of
the spike computation, where `pandas.Series.std` is the ddof = 1 *sample*
standard deviation `sqrt(Σ (x - mean)² / (n - 1))`. -/
def zmaxSample (sqrt : α → α) (xs : List α) : α :=
  let μ := xs.sum / (xs.length : α)
  let σ := sqrt ((xs.map (fun x => (x - μ) ^ 2)).sum / ((xs.length : α) - 1))
  ((xs.map (fun x => |(x - μ) / (σ + eps10)|)).foldr max 0)

/-- `_hour_entropy` from `features.py`: `value_counts(normalize=True)`
probabilities, the `p[p > 0]` filter, and `-Σ p * log2(p + 1e-10)` with the
(transcendental) `np.log2` abstract. -/
def hourEntropy (log2 : α → α) (hours : List ℤ) : α :=
  if hours.length < 2 then 0
  else
    -((((firstDedup hours).map (fun h => (hours.count h : α) / (hours.length : α))
        |>.filter (fun p => decide (0 < p))
        |>.map (fun p => p * log2 (p + eps10))).sum))

/-- `df.sort_values("purchase_date")` (order among equal timestamps is
irrelevant to every feature below). -/
def sortByDate (txns : List (Txn α)) : List (Txn α) :=
  List.insertionSort (fun a b => a.ts ≤ b.ts) txns

/-- `late_night_ratio = ((hours >= 22) | (hours < 5)).sum() / len(df)`. -/
def lateNightRatioOf (s : List (Txn α)) : α :=
  ((s.countP (fun t => isLateNight t.ts) : ℕ) : α) / (s.length : α)

/-- `weekend_ratio = (weekday >= 5).sum() / len(df)`. -/
def weekendRatioOf (s : List (Txn α)) : α :=
  ((s.countP (fun t => isWeekend t.ts) : ℕ) : α) / (s.length : α)

/-- The `groupby("date")` keys: distinct calendar days in order of appearance
(for date-sorted rows, ascending day order). -/
def daysOf (s : List (Txn α)) : List ℤ :=
  firstDedup (s.map (fun t => epochDay t.ts))

/-- `daily_tx_count`: transactions per calendar day, one entry per key of
`daysOf`. -/
def dailyCountsOf (s : List (Txn α)) : List α :=
  (daysOf s).map (fun d => ((s.countP (fun t => decide (epochDay t.ts = d)) : ℕ) : α))

/-- `daily_spend`: summed absolute amount per calendar day. -/
def dailySpendsOf (s : List (Txn α)) : List α :=
  (daysOf s).map (fun d =>
    ((s.filter (fun t => decide (epochDay t.ts = d))).map (fun t => |t.amount|)).sum)

/-- `spike_intensity = max(spike_intensity_count, spike_intensity_spend)`,
both `0.0` when there are fewer than 2 distinct days. -/
def spikeOf (sqrt : α → α) (s : List (Txn α)) : α :=
  if (daysOf s).length < 2 then 0
  else max (zmaxSample sqrt (dailyCountsOf s)) (zmaxSample sqrt (dailySpendsOf s))

/-- `diffs = dates.diff().dt.total_seconds() / 60` (the NaN head entry of
`diff` never satisfies either comparison, so only the `n-1` real gaps appear). -/
def diffsOf (s : List (Txn α)) : List α :=
  (s.zip s.tail).map (fun p => ((p.2.ts - p.1.ts : ℤ) : α) / 60)

/-- `burst_ratio_30min = ((diffs <= 30) & (diffs > 0)).sum() / ((diffs > 0).sum() + 1e-10)`. -/
def burstRatioOf (s : List (Txn α)) : α :=
  (((diffsOf s).countP (fun d => decide (d ≤ 30 ∧ 0 < d)) : ℕ) : α) /
    ((((diffsOf s).countP (fun d => decide (0 < d)) : ℕ) : α) + eps10)

/-- `max_tx_in_2h`: the maximal `((ts >= ts[i]) & (ts <= ts[i] + 2h)).sum()`
over all `i`, starting from `0`. -/
def max2hOf (s : List (Txn α)) : ℕ :=
  (s.map (fun a => s.countP (fun b => decide (a.ts ≤ b.ts ∧ b.ts ≤ a.ts + 7200)))).foldr max 0

/-- `eom_spend_ratio = last_5_spend / (rest_spend + 1e-10)`. -/
def eomSpendRatioOf (s : List (Txn α)) : α :=
  (((s.filter (fun t => isLast5 t.ts)).map (fun t => |t.amount|)).sum) /
    ((((s.filter (fun t => ! isLast5 t.ts)).map (fun t => |t.amount|)).sum) + eps10)

/-- `eom_count_ratio = last_5_count / (rest_count + 1e-10)`. -/
def eomCountRatioOf (s : List (Txn α)) : α :=
  (((s.filter (fun t => isLast5 t.ts)).length : ℕ) : α) /
    ((((s.filter (fun t => ! isLast5 t.ts)).length : ℕ) : α) + eps10)

/-- `cat3 = df["category_3"].astype(str)`. -/
def catsOf (s : List (Txn α)) : List String := s.map (fun t => t.cat3)

/-- `category_concentration = counts.max() if len(counts) else 0.0` over
`value_counts(normalize=True)` shares. -/
def concentrationOf (s : List (Txn α)) : α :=
  if (firstDedup (catsOf s)).isEmpty then 0
  else ((firstDedup (catsOf s)).map
    (fun c => (((catsOf s).count c : ℕ) : α) / ((catsOf s).length : α))).foldr max 0

/-- `total_spend = amounts.sum()` of absolute amounts. -/
def totalSpendOf (s : List (Txn α)) : α := (s.map (fun t => |t.amount|)).sum

/-- `compute_features` from `features.py`.  `sqrt` is the square root inside
`pandas.Series.std`; `log2` is `np.log2`; both are abstract, and no claim
depends on their values.  Empty input short-circuits to `_empty_features()`;
otherwise the rows are sorted by `purchase_date` and each local of the Python
body is one of the definitions above. -/
def compute_features (sqrt log2 : α → α) (txns : List (Txn α)) : FeatureVector α :=
  if txns.isEmpty then emptyFeatures
  else
    ⟨lateNightRatioOf (sortByDate txns),
     weekendRatioOf (sortByDate txns),
     hourEntropy log2 ((sortByDate txns).map (fun t => hourOf t.ts)),
     spikeOf sqrt (sortByDate txns),
     burstRatioOf (sortByDate txns),
     max2hOf (sortByDate txns),
     eomSpendRatioOf (sortByDate txns),
     eomCountRatioOf (sortByDate txns),
     (firstDedup (catsOf (sortByDate txns))).length,
     concentrationOf (sortByDate txns),
     (sortByDate txns).length,
     totalSpendOf (sortByDate txns)⟩

/-- The dict handed to scoring/calibration/profiling by `training.py`
(integer entries read back as floats). -/
def FeatureVector.toDict (v : FeatureVector α) : FeatureDict α :=
  ⟨some v.late_night_ratio, some v.weekend_ratio, some v.hour_entropy,
   some v.spike_intensity, some v.burst_ratio_30min, some (v.max_tx_in_2h : α),
   some v.eom_spend_ratio, some v.eom_count_ratio, some (v.category_diversity : α),
   some v.category_concentration, some (v.tx_count : α), some v.total_spend⟩

/-! ### Structural facts about compute_features -/

lemma compute_features_ne (sqrt log2 : α → α) {txns : List (Txn α)} (h : txns ≠ []) :
    compute_features sqrt log2 txns =
      ⟨lateNightRatioOf (sortByDate txns),
       weekendRatioOf (sortByDate txns),
       hourEntropy log2 ((sortByDate txns).map (fun t => hourOf t.ts)),
       spikeOf sqrt (sortByDate txns),
       burstRatioOf (sortByDate txns),
       max2hOf (sortByDate txns),
       eomSpendRatioOf (sortByDate txns),
       eomCountRatioOf (sortByDate txns),
       (firstDedup (catsOf (sortByDate txns))).length,
       concentrationOf (sortByDate txns),
       (sortByDate txns).length,
       totalSpendOf (sortByDate txns)⟩ := by
  unfold compute_features
  rw [if_neg (by simpa [List.isEmpty_iff] using h)]

lemma sortByDate_perm (txns : List (Txn α)) : (sortByDate txns).Perm txns :=
  List.perm_insertionSort _ txns

lemma sortByDate_ne_nil {txns : List (Txn α)} (h : txns ≠ []) : sortByDate txns ≠ [] := by
  intro hs
  apply h
  have hlen := (sortByDate_perm (α := α) txns).length_eq
  rw [hs] at hlen
  exact List.length_eq_zero.mp hlen.symm

lemma countP_div_length_nonneg (p : Txn α → Bool) (s : List (Txn α)) :
    0 ≤ ((s.countP p : ℕ) : α) / (s.length : α) :=
  div_nonneg (Nat.cast_nonneg _) (Nat.cast_nonneg _)

lemma countP_div_length_le_one (p : Txn α → Bool) (s : List (Txn α)) :
    ((s.countP p : ℕ) : α) / (s.length : α) ≤ 1 := by
  rcases Nat.eq_zero_or_pos s.length with h0 | hpos
  · rw [h0]
    norm_num
  · rw [div_le_one (by exact_mod_cast hpos)]
    exact_mod_cast List.countP_le_length p

lemma eps10_pos : (0 : α) < eps10 := by
  rw [eps10]
  positivity

lemma absSum_nonneg (l : List (Txn α)) : 0 ≤ (l.map (fun t => |t.amount|)).sum := by
  apply List.sum_nonneg
  intro x hx
  obtain ⟨t, _, rfl⟩ := List.mem_map.mp hx
  exact abs_nonneg _

lemma burstRatioOf_nonneg (s : List (Txn α)) : 0 ≤ burstRatioOf s := by
  unfold burstRatioOf
  have := eps10_pos (α := α)
  apply div_nonneg (Nat.cast_nonneg _)
  have : (0 : α) ≤ (((diffsOf s).countP (fun d => decide (0 < d)) : ℕ) : α) :=
    Nat.cast_nonneg _
  linarith [eps10_pos (α := α)]

lemma burstRatioOf_le_one (s : List (Txn α)) : burstRatioOf s ≤ 1 := by
  unfold burstRatioOf
  have hcg : (diffsOf s).countP (fun d => decide (d ≤ 30 ∧ 0 < d)) ≤
      (diffsOf s).countP (fun d => decide (0 < d)) := by
    apply List.countP_mono_left
    intro d _ hd
    simp only [decide_eq_true_eq] at hd ⊢
    exact hd.2
  have hg0 : (0 : α) ≤ (((diffsOf s).countP (fun d => decide (0 < d)) : ℕ) : α) :=
    Nat.cast_nonneg _
  rw [div_le_one (by linarith [eps10_pos (α := α)])]
  have : ((((diffsOf s).countP (fun d => decide (d ≤ 30 ∧ 0 < d)) : ℕ)) : α) ≤
      (((diffsOf s).countP (fun d => decide (0 < d)) : ℕ) : α) := by exact_mod_cast hcg
  linarith [eps10_pos (α := α)]

lemma eomSpendRatioOf_nonneg (s : List (Txn α)) : 0 ≤ eomSpendRatioOf s := by
  unfold eomSpendRatioOf
  exact div_nonneg (absSum_nonneg _)
    (by linarith [absSum_nonneg (s.filter (fun t => ! isLast5 t.ts)), eps10_pos (α := α)])

lemma eomCountRatioOf_nonneg (s : List (Txn α)) : 0 ≤ eomCountRatioOf s := by
  unfold eomCountRatioOf
  refine div_nonneg (Nat.cast_nonneg _) ?_
  have : (0 : α) ≤ ((s.filter (fun t => ! isLast5 t.ts)).length : α) := Nat.cast_nonneg _
  linarith [eps10_pos (α := α)]

lemma le_foldr_max {l : List ℕ} {x : ℕ} (hx : x ∈ l) : x ≤ l.foldr max 0 := by
  induction l with
  | nil => cases hx
  | cons a l ih =>
    rcases List.mem_cons.mp hx with rfl | h
    · exact le_max_left _ _
    · exact le_trans (ih h) (le_max_right _ _)

lemma one_le_max2hOf {s : List (Txn α)} (h : s ≠ []) : 1 ≤ max2hOf s := by
  obtain ⟨a, rest, rfl⟩ := List.exists_cons_of_ne_nil h
  have hmem : (a :: rest).countP
      (fun b => decide (a.ts ≤ b.ts ∧ b.ts ≤ a.ts + 7200)) ∈
      ((a :: rest).map
        (fun c => (a :: rest).countP (fun b => decide (c.ts ≤ b.ts ∧ b.ts ≤ c.ts + 7200)))) :=
    List.mem_map_of_mem _ (List.mem_cons_self a rest)
  have hpos : 0 < (a :: rest).countP
      (fun b => decide (a.ts ≤ b.ts ∧ b.ts ≤ a.ts + 7200)) := by
    rw [List.countP_pos_iff]
    exact ⟨a, List.mem_cons_self a rest, by simp⟩
  exact le_trans hpos (le_foldr_max hmem)

/-! ### Claim C2 — FeatureVector range invariants -/

/-- Claim C2 (counterexample): a single transaction on 2024-01-29 (inside the
last 5 calendar days of its month) has `eom_spend_ratio = 10 / 1e-10 = 10^11`,
far outside `[0, 1]`, so "every ratio field lies in `[0, 1]`" fails for the
end-of-month ratios. -/
theorem C2_counterexample :
    ¬ ((compute_features (fun _ => 0) (fun _ => 0)
        [(⟨19751 * 86400 + 3600, 10, "A"⟩ : Txn ℚ)]).eom_spend_ratio ≤ 1) := by
  rw [compute_features_ne _ _ (List.cons_ne_nil _ _)]
  show ¬ (eomSpendRatioOf (sortByDate [(⟨19751 * 86400 + 3600, 10, "A"⟩ : Txn ℚ)]) ≤ 1)
  have hs : sortByDate [(⟨19751 * 86400 + 3600, 10, "A"⟩ : Txn ℚ)] =
      [⟨19751 * 86400 + 3600, 10, "A"⟩] := by decide
  have hf1 : ([(⟨19751 * 86400 + 3600, 10, "A"⟩ : Txn ℚ)]).filter
      (fun t => isLast5 t.ts) = [⟨19751 * 86400 + 3600, 10, "A"⟩] := by decide
  have hf2 : ([(⟨19751 * 86400 + 3600, 10, "A"⟩ : Txn ℚ)]).filter
      (fun t => ! isLast5 t.ts) = [] := by decide
  simp only [eomSpendRatioOf, hs, hf1, hf2, List.map_cons, List.map_nil,
    List.sum_cons, List.sum_nil, eps10]
  norm_num

/-- Claim C2 (amended): for every transaction list, `late_night_ratio`,
`weekend_ratio` and `burst_ratio_30min` lie in `[0, 1]`; the two end-of-month
ratios are only guaranteed non-negative (they are quotients of the last-5-days
mass by the rest-of-month mass and exceed 1 whenever the former dominates);
`category_diversity ≥ 0` and `tx_count ≥ 0`; and `max_tx_in_2h ≥ 1` whenever
there is at least one transaction. -/
theorem C2_feature_ranges {β : Type} [LinearOrderedField β] (sqrt log2 : β → β)
    (txns : List (Txn β)) :
    (0 ≤ (compute_features sqrt log2 txns).late_night_ratio ∧
      (compute_features sqrt log2 txns).late_night_ratio ≤ 1) ∧
    (0 ≤ (compute_features sqrt log2 txns).weekend_ratio ∧
      (compute_features sqrt log2 txns).weekend_ratio ≤ 1) ∧
    (0 ≤ (compute_features sqrt log2 txns).burst_ratio_30min ∧
      (compute_features sqrt log2 txns).burst_ratio_30min ≤ 1) ∧
    0 ≤ (compute_features sqrt log2 txns).eom_spend_ratio ∧
    0 ≤ (compute_features sqrt log2 txns).eom_count_ratio ∧
    0 ≤ (compute_features sqrt log2 txns).category_diversity ∧
    0 ≤ (compute_features sqrt log2 txns).tx_count ∧
    (txns ≠ [] → 1 ≤ (compute_features sqrt log2 txns).max_tx_in_2h) := by
  by_cases h : txns = []
  · subst h
    exact ⟨⟨le_rfl, zero_le_one⟩, ⟨le_rfl, zero_le_one⟩, ⟨le_rfl, zero_le_one⟩,
      le_rfl, le_rfl, Nat.zero_le _, Nat.zero_le _, fun hne => absurd rfl hne⟩
  · rw [compute_features_ne sqrt log2 h]
    exact ⟨⟨countP_div_length_nonneg _ _, countP_div_length_le_one _ _⟩,
      ⟨countP_div_length_nonneg _ _, countP_div_length_le_one _ _⟩,
      ⟨burstRatioOf_nonneg _, burstRatioOf_le_one _⟩,
      eomSpendRatioOf_nonneg _, eomCountRatioOf_nonneg _,
      Nat.zero_le _, Nat.zero_le _,
      fun _ => one_le_max2hOf (sortByDate_ne_nil h)⟩

/-- Claim C2 (witness): the amended invariants at a one-transaction input. -/
theorem C2_feature_ranges_witness :
    ([(⟨0, 1, "A"⟩ : Txn ℚ)] ≠ []) ∧
      1 ≤ (compute_features (fun _ => 0) (fun _ => 0)
        [(⟨0, 1, "A"⟩ : Txn ℚ)]).max_tx_in_2h :=
  ⟨List.cons_ne_nil _ _,
    (C2_feature_ranges (fun _ => 0) (fun _ => 0) [⟨0, 1, "A"⟩]).2.2.2.2.2.2.2
      (List.cons_ne_nil _ _)⟩

/-! ### Claim C5 — the 10-transaction 02:00 burst scenario -/

/-- The C5 scenario: one entity, 10 transactions on 2024-01-15 (epoch day
19737) starting at 02:00:00 UTC, 5 minutes apart, each of amount 10. -/
def scenarioC5 : List (Txn ℚ) :=
  (List.range 10).map (fun i => ⟨19737 * 86400 + 7200 + 300 * (i : ℤ), 10, "A"⟩)

lemma scenarioC5_sorted : sortByDate scenarioC5 = scenarioC5 := by decide

lemma scenarioC5_diffs :
    diffsOf (sortByDate scenarioC5) = [5, 5, 5, 5, 5, 5, 5, 5, 5] := by
  rw [scenarioC5_sorted]
  have h : scenarioC5 =
      [⟨1705284000, 10, "A"⟩, ⟨1705284300, 10, "A"⟩, ⟨1705284600, 10, "A"⟩,
       ⟨1705284900, 10, "A"⟩, ⟨1705285200, 10, "A"⟩, ⟨1705285500, 10, "A"⟩,
       ⟨1705285800, 10, "A"⟩, ⟨1705286100, 10, "A"⟩, ⟨1705286400, 10, "A"⟩,
       ⟨1705286700, 10, "A"⟩] := by decide
  rw [h]
  simp only [diffsOf, List.tail_cons, List.zip_cons_cons, List.zip_nil_right,
    List.map_cons, List.map_nil]
  norm_num

lemma scenarioC5_burst :
    burstRatioOf (sortByDate scenarioC5) = 9 / (9 + 1 / 10 ^ 10) := by
  simp only [burstRatioOf, scenarioC5_diffs, eps10]
  norm_num [List.countP_cons, List.countP_nil]

/-- Claim C5 (counterexample): with 10 transactions there are 9 positive
5-minute gaps, so `burst_ratio_30min = 9 / (9 + 1e-10) ≠ 1.0`: the epsilon
in the denominator keeps the ratio strictly below 1. -/
theorem C5_counterexample :
    (compute_features (fun _ => 0) (fun _ => 0) scenarioC5).burst_ratio_30min ≠ 1 := by
  rw [compute_features_ne _ _ (by decide : scenarioC5 ≠ [])]
  show burstRatioOf (sortByDate scenarioC5) ≠ 1
  rw [scenarioC5_burst]
  norm_num

/-- Claim C5 (amended): on the scenario, `late_night_ratio = 1.0`,
`max_tx_in_2h = 10` and `spike_intensity = 0.0` hold as claimed (for any
square root and logarithm), but `burst_ratio_30min` equals
`9 / (9 + 1e-10)` (≈ 0.99999999999), not exactly `1.0`. -/
theorem C5_scenario (sqrt log2 : ℚ → ℚ) :
    (compute_features sqrt log2 scenarioC5).late_night_ratio = 1 ∧
    (compute_features sqrt log2 scenarioC5).burst_ratio_30min = 9 / (9 + 1 / 10 ^ 10) ∧
    (compute_features sqrt log2 scenarioC5).max_tx_in_2h = 10 ∧
    (compute_features sqrt log2 scenarioC5).spike_intensity = 0 := by
  rw [compute_features_ne _ _ (by decide : scenarioC5 ≠ [])]
  refine ⟨?_, scenarioC5_burst, ?_, ?_⟩
  · show lateNightRatioOf (sortByDate scenarioC5) = 1
    have hc : (sortByDate scenarioC5).countP (fun t => isLateNight t.ts) = 10 := by decide
    have hl : (sortByDate scenarioC5).length = 10 := by decide
    simp only [lateNightRatioOf, hc, hl]
    norm_num
  · show max2hOf (sortByDate scenarioC5) = 10
    decide
  · show spikeOf sqrt (sortByDate scenarioC5) = 0
    simp only [spikeOf]
    rw [if_pos (by decide : (daysOf (sortByDate scenarioC5)).length < 2)]

/-! ### training.py — score calibration -/

/-- `np.percentile(arr, q)` with the default linear interpolation: with the
sorted sample `a 0 ≤ … ≤ a (n-1)` and virtual index `h = (n-1)·q/100`, the
result is `a ⌊h⌋ + (h - ⌊h⌋) · (a (⌊h⌋+1) - a ⌊h⌋)` (the out-of-range
neighbour defaulting to the lower one). -/
def npPercentile [FloorRing α] (q : α) (values : List α) : α :=
  let sorted := List.insertionSort (fun a b => a ≤ b) values
  let h := ((values.length : α) - 1) * q / 100
  let lo := sorted.getD ⌊h⌋.toNat 0
  let hi := sorted.getD (⌊h⌋.toNat + 1) lo
  lo + (h - (⌊h⌋ : α)) * (hi - lo)

/-- `_percentile` from `training.py`: keep the finite values (vacuously all of
them in the exact-rational embedding), fall back to the default on an empty
sample, else `np.percentile(arr, q)`. -/
def _percentile [FloorRing α] (values : List α) (q : α) (dflt : α) : α :=
  if values = [] then dflt else npPercentile q values

/-- `fit_score_calibration` from `training.py`: 95th-percentile normalization
bounds with fixed floors `1.0, 3.0, 0.5, 1.0, 3.0` and fixed empty-sample
defaults `5.0, 20.0, 3.0, 4.0, 10.0`. -/
def fit_score_calibration [FloorRing α] (features_list : List (FeatureDict α)) :
    Calibration α :=
  ⟨max 1 (_percentile (features_list.map (fun f => fget f.spike_intensity)) 95 5),
   max 3 (_percentile (features_list.map (fun f => fget f.max_tx_in_2h)) 95 20),
   max 0.5 (_percentile (features_list.map
     (fun f => max (fget f.eom_spend_ratio) (fget f.eom_count_ratio))) 95 3),
   max 1 (_percentile (features_list.map (fun f => fget f.hour_entropy)) 95 4),
   max 3 (_percentile (features_list.map (fun f => fget f.category_diversity)) 95 10)⟩

/-! ### Claim C7 — calibration bounds -/

/-- The 95th percentile written the way the spec describes it, independently of
`_percentile`: sort the sample (with a different sorting algorithm) and
linearly interpolate at rank `0.95 · (n - 1)`. -/
def percentile95Spec [FloorRing α] (values : List α) : α :=
  let sorted := values.mergeSort (fun a b => decide (a ≤ b))
  let h := ((values.length : α) - 1) * 95 / 100
  let lo := sorted.getD ⌊h⌋.toNat 0
  let hi := sorted.getD (⌊h⌋.toNat + 1) lo
  lo + (h - (⌊h⌋ : α)) * (hi - lo)

lemma insertionSort_eq_mergeSort {γ : Type} [LinearOrder γ] (xs : List γ) :
    List.insertionSort (fun a b => a ≤ b) xs =
      xs.mergeSort (fun a b => decide (a ≤ b)) := by
  have hs1 : List.Sorted (· ≤ ·) (List.insertionSort (fun a b => a ≤ b) xs) :=
    List.sorted_insertionSort _ xs
  have hs2 : List.Sorted (· ≤ ·) (xs.mergeSort (fun a b => decide (a ≤ b))) := by
    have hp := @List.sorted_mergeSort γ
      (fun a b : γ => decide (a ≤ b))
      (fun a b c hab hbc => by
        simp only [decide_eq_true_eq] at hab hbc ⊢
        exact le_trans hab hbc)
      (fun a b => by
        simp only [Bool.or_eq_true, decide_eq_true_eq]
        exact le_total a b) xs
    exact hp.imp (fun h => by simpa using h)
  exact List.eq_of_perm_of_sorted
    ((List.perm_insertionSort _ xs).trans (List.mergeSort_perm xs _).symm) hs1 hs2

/-- Claim C7: every calibration bound equals the 95th percentile of its field
sample (an independently stated sorted-rank interpolation) floored at the fixed
minimum (`spike ≥ 1`, `max-2h ≥ 3`, `EOM ≥ 0.5`, `entropy ≥ 1`,
`diversity ≥ 3`), with the fixed default (`5, 20, 3, 4, 10`) when the sample
is empty; in the exact-rational embedding every sample value is finite, so the
non-finite filter of `_percentile` is vacuous. -/
theorem C7_calibration {β : Type} [LinearOrderedField β] [FloorRing β]
    (fl : List (FeatureDict β)) :
    ((fit_score_calibration fl).spike_p95 =
      max 1 (if fl.map (fun f => fget f.spike_intensity) = [] then 5
        else percentile95Spec (fl.map (fun f => fget f.spike_intensity)))) ∧
    ((fit_score_calibration fl).max_tx_in_2h_p95 =
      max 3 (if fl.map (fun f => fget f.max_tx_in_2h) = [] then 20
        else percentile95Spec (fl.map (fun f => fget f.max_tx_in_2h)))) ∧
    ((fit_score_calibration fl).eom_ratio_p95 =
      max 0.5 (if fl.map (fun f => max (fget f.eom_spend_ratio) (fget f.eom_count_ratio)) = []
        then 3
        else percentile95Spec (fl.map
          (fun f => max (fget f.eom_spend_ratio) (fget f.eom_count_ratio))))) ∧
    ((fit_score_calibration fl).hour_entropy_p95 =
      max 1 (if fl.map (fun f => fget f.hour_entropy) = [] then 4
        else percentile95Spec (fl.map (fun f => fget f.hour_entropy)))) ∧
    ((fit_score_calibration fl).category_diversity_p95 =
      max 3 (if fl.map (fun f => fget f.category_diversity) = [] then 10
        else percentile95Spec (fl.map (fun f => fget f.category_diversity)))) ∧
    1 ≤ (fit_score_calibration fl).spike_p95 ∧
    3 ≤ (fit_score_calibration fl).max_tx_in_2h_p95 ∧
    0.5 ≤ (fit_score_calibration fl).eom_ratio_p95 ∧
    1 ≤ (fit_score_calibration fl).hour_entropy_p95 ∧
    3 ≤ (fit_score_calibration fl).category_diversity_p95 := by
  have key : ∀ (xs : List β) (dflt : β),
      _percentile xs 95 dflt = if xs = [] then dflt else percentile95Spec xs := by
    intro xs dflt
    unfold _percentile npPercentile percentile95Spec
    split_ifs with h
    · rfl
    · rw [insertionSort_eq_mergeSort]
  exact ⟨congrArg _ (key _ _), congrArg _ (key _ _), congrArg _ (key _ _),
    congrArg _ (key _ _), congrArg _ (key _ _),
    le_max_left _ _, le_max_left _ _, le_max_left _ _, le_max_left _ _, le_max_left _ _⟩

/-! ### profiling.py

The sklearn scaler+KMeans pair is an external collaborator: the fitted model
is an abstract type `M`, fitting is an abstract `fitM` over the matrix of
cluster-feature rows, prediction an abstract `predictM`, and the seeded
subsampling above the cap an abstract `choose`. -/

/-- `N_CLUSTERS` from `profiling.py`. -/
def N_CLUSTERS : ℕ := 5

/-- `MAX_USERS_FOR_FIT` from `profiling.py`. -/
def MAX_USERS_FOR_FIT : ℕ := 50000

/-- Python-dict lookup on an insertion-ordered association list. -/
def assocGet {γ : Type} : List (String × γ) → String → Option γ
  | [], _ => none
  | (k', v) :: rest, k => if k' = k then some v else assocGet rest k

/-- Python-dict assignment `d[k] = v`: overwrite in place, else append. -/
def assocSet {γ : Type} : List (String × γ) → String → γ → List (String × γ)
  | [], k, v => [(k, v)]
  | (k', v') :: rest, k, v =>
      if k' = k then (k, v) :: rest else (k', v') :: assocSet rest k v

/-- The row `[float(f.get(k, 0) or 0) for k in CLUSTER_FEATURES]` of
`_get_feature_matrix`, in the `CLUSTER_FEATURES` order. -/
def clusterRow (f : FeatureDict α) : List α :=
  [fget f.late_night_ratio, fget f.weekend_ratio, fget f.spike_intensity,
   fget f.burst_ratio_30min, fget f.eom_spend_ratio, fget f.category_concentration]

/-- `fit_profiler` from `profiling.py`: warn and leave the cache untouched
when there are fewer than `N_CLUSTERS` samples; otherwise build the feature
matrix, subsample above the cap, fit (abstract) and cache under the id. -/
def fit_profiler {M : Type} (fitM : List (List α) → M)
    (choose : List (List α) → List (List α)) (cache : List (String × M))
    (dataset_id : String) (features_list : List (FeatureDict α)) :
    List (String × M) :=
  if features_list.length < N_CLUSTERS then cache
  else
    let X := features_list.map clusterRow
    let Xs := if MAX_USERS_FOR_FIT < features_list.length then choose X else X
    assocSet cache dataset_id (fitM Xs)

/-- The result dict of `get_profile`. -/
structure Profile (α : Type) where
  cluster_id : ℕ
  profile_label : String
  interpretation : String
  key_stats : FeatureDict α
deriving DecidableEq

/-- `user_features.get(k, 0) and user_features[k] > c`: the key must be
present with a truthy (non-`None`, non-zero) value above the threshold. -/
def truthyGt (o : Option α) (c : α) : Bool :=
  match o with
  | none => false
  | some v => decide (¬ v = 0 ∧ c < v)

/-- The rule-based interpretation chain of `get_profile`, evaluated in fixed
priority order and independent of the assigned cluster id. -/
def interpretationOf (f : FeatureDict α) : String :=
  if truthyGt f.late_night_ratio 0.2 then "More transactions occur late at night."
  else if truthyGt f.burst_ratio_30min 0.25 then "Frequent short-interval (burst) purchases."
  else if truthyGt f.eom_spend_ratio 0.8 then "Spending tends to rise at end of month."
  else if truthyGt f.category_concentration 0.5 then "Spending concentrated in few categories."
  else "Relatively steady spending pattern across time and categories."

/-- `{k: user_features.get(k) for k in CLUSTER_FEATURES if k in user_features}`:
only the six cluster-feature keys survive. -/
def restrictClusterFeatures (f : FeatureDict α) : FeatureDict α :=
  ⟨f.late_night_ratio, f.weekend_ratio, none, f.spike_intensity, f.burst_ratio_30min,
   none, f.eom_spend_ratio, none, none, f.category_concentration, none, none⟩

/-- The fitted-model branch of `get_profile`: predict the cluster id of the
standardized row, label it via `PROFILE_LABELS.get(label, f"Profile {label}")`,
and attach the heuristic interpretation and key stats. -/
def mkProfile {M : Type} (predictM : M → List α → ℕ) (m : M) (f : FeatureDict α) :
    Profile α :=
  ⟨predictM m (clusterRow f),
   profileLabelsGet (predictM m (clusterRow f))
     ("Profile " ++ toString (predictM m (clusterRow f))),
   interpretationOf f, restrictClusterFeatures f⟩

/-- The no-clustering fallback of `get_profile`: default cluster 0,
`"Steady spender"`, explanatory interpretation, full `dict(user_features)`. -/
def defaultProfile (f : FeatureDict α) : Profile α :=
  ⟨0, profileLabelsGet 0 "Steady spender",
   "Insufficient data for behaviour profile.", f⟩

/-- `get_profile` from `profiling.py`, threading the cache (which the
fit-first branch updates).  The inner `none` case after a successful fit is
unreachable (the fit with `≥ N_CLUSTERS` samples always caches). -/
def get_profile {M : Type} (fitM : List (List α) → M)
    (choose : List (List α) → List (List α)) (predictM : M → List α → ℕ)
    (cache : List (String × M)) (dataset_id : String) (user_features : FeatureDict α)
    (all_features_list : Option (List (FeatureDict α))) :
    Profile α × List (String × M) :=
  match assocGet cache dataset_id with
  | some m => (mkProfile predictM m user_features, cache)
  | none =>
    match all_features_list with
    | some fl =>
      if N_CLUSTERS ≤ fl.length then
        let cache' := fit_profiler fitM choose cache dataset_id fl
        match assocGet cache' dataset_id with
        | some m => (mkProfile predictM m user_features, cache')
        | none => (defaultProfile user_features, cache')
      else (defaultProfile user_features, cache)
    | none => (defaultProfile user_features, cache)

/-! ### Claim C8 — small-dataset fallback -/

/-- Claim C8: with fewer entities than `N_CLUSTERS` (5), `fit_profiler` skips
fitting and leaves the cache untouched, and — the dataset having no cached
model — `get_profile` (called as in `training.py`, without a feature list)
returns cluster id 0, label `"Steady spender"` and the explanatory
interpretation `"Insufficient data for behaviour profile."` for every entity. -/
theorem C8_small_dataset_fallback {β : Type} [LinearOrderedField β] {M : Type}
    (fitM : List (List β) → M) (choose : List (List β) → List (List β))
    (predictM : M → List β → ℕ) (cache : List (String × M)) (dataset_id : String)
    (fl : List (FeatureDict β)) (uf : FeatureDict β)
    (hlen : fl.length < N_CLUSTERS) (hmiss : assocGet cache dataset_id = none) :
    fit_profiler fitM choose cache dataset_id fl = cache ∧
    (get_profile fitM choose predictM (fit_profiler fitM choose cache dataset_id fl)
        dataset_id uf none).1 =
      ⟨0, "Steady spender", "Insufficient data for behaviour profile.", uf⟩ := by
  have hfit : fit_profiler fitM choose cache dataset_id fl = cache := by
    unfold fit_profiler
    rw [if_pos hlen]
  refine ⟨hfit, ?_⟩
  rw [hfit]
  unfold get_profile
  rw [hmiss]
  rfl

/-- Claim C8 (witness): the fallback at an empty dataset and empty cache. -/
theorem C8_small_dataset_fallback_witness :
    ([] : List (FeatureDict ℚ)).length < N_CLUSTERS ∧
    assocGet ([] : List (String × Unit)) "d" = none ∧
    (fit_profiler (fun _ => ()) id ([] : List (String × Unit)) "d"
        ([] : List (FeatureDict ℚ)) = [] ∧
      (get_profile (fun _ => ()) id (fun _ _ => 0)
          (fit_profiler (fun _ => ()) id ([] : List (String × Unit)) "d"
            ([] : List (FeatureDict ℚ))) "d" fdNone none).1 =
        ⟨0, "Steady spender", "Insufficient data for behaviour profile.", fdNone⟩) :=
  ⟨by decide, rfl,
    C8_small_dataset_fallback (fun _ => ()) id (fun _ _ => 0) [] "d" [] fdNone
      (by decide) rfl⟩

/-! ### training.py — orchestration -/

/-- One row of the dataset dataframe as `ensure_trained` uses it:
`card_id` plus the transaction columns. -/
structure Row (α : Type) where
  card_id : String
  txn : Txn α
deriving DecidableEq

/-- The `global_insights` dict of `ensure_trained`. -/
structure Insights (α : Type) where
  mean_score : α
  p50_score : α
  p75_score : α
  p90_score : α
  band_counts : List (String × ℕ)
  cluster_counts : List (String × ℕ)
deriving DecidableEq

/-- The per-dataset artifacts dict assembled at the end of `ensure_trained`
(`trained, trained_users, trained_seconds, calibration, global_insights`). -/
structure Artifacts (α : Type) where
  trained : Bool
  trained_users : ℕ
  trained_seconds : α
  calibration : Option (Calibration α)
  global_insights : Option (Insights α)
deriving DecidableEq

/-- The fallback `{"trained": False, "calibration": None}` of `ensure_trained`
(absent keys read as falsy defaults). -/
def defaultArtifacts : Artifacts α := ⟨false, 0, 0, none, none⟩

/-- Modelled from the spec: `get_artifacts` of `src/data_loader.py` — imported
by `training.py` but absent from the provided sources.  Per the spec, the
store maps a dataset id to at most one TrainingArtifacts record; lookup
returns it or `None`. -/
def get_artifacts (store : List (String × Artifacts α)) (dataset_id : String) :
    Option (Artifacts α) :=
  assocGet store dataset_id

/-- Modelled from the spec: `set_artifacts` of `src/data_loader.py` — imported
by `training.py` but absent from the provided sources.  Per the spec, the
record is replaced atomically (a single dict assignment), never mutated
field-by-field. -/
def set_artifacts (store : List (String × Artifacts α)) (dataset_id : String)
    (a : Artifacts α) : List (String × Artifacts α) :=
  assocSet store dataset_id a

/-- The mutable state `ensure_trained` touches: the artifacts store
(spec-modelled) and the profiler cache `_cache` of `profiling.py`. -/
structure TState (α : Type) (M : Type) where
  store : List (String × Artifacts α)
  pcache : List (String × M)
deriving DecidableEq

/-- `counts[k] = counts.get(k, 0) + 1` preserving dict insertion order. -/
def bumpCount (l : List (String × ℕ)) (k : String) : List (String × ℕ) :=
  assocSet l k ((assocGet l k).getD 0 + 1)

/-- `_sample_card_ids` from `training.py`: the unique card ids in order of
appearance, subsampled through the abstract seeded `chooseIds` only above the
`MAX_USERS_FOR_FIT` cap. -/
def _sample_card_ids (chooseIds : List String → List String) (df : List (Row α)) :
    List String :=
  let card_ids := firstDedup (df.map (fun r => r.card_id))
  if card_ids.length ≤ MAX_USERS_FOR_FIT then card_ids else chooseIds card_ids

/-- `ensure_trained` from `training.py`.  Abstract parameters: `sqrt`/`log2`
as in `compute_features`; `fitM`/`choose`/`predictM` the sklearn calls and
seeded subsampling of `profiling.py`; `chooseIds` the seeded subsampling of
`_sample_card_ids`; `elapsed` the wall-clock `round(time.time() - start, 2)`.
Fast path: stored artifacts marked trained with a (truthy) calibration are
returned unchanged.  Otherwise: sample users, extract features, fit the
calibration and the profiler, score every sampled user for the global
insights, then install the fresh artifacts as the single final step. -/
def ensure_trained {M : Type} [FloorRing α] (sqrt log2 : α → α)
    (fitM : List (List α) → M) (choose : List (List α) → List (List α))
    (predictM : M → List α → ℕ) (chooseIds : List String → List String) (elapsed : α)
    (dataset_id : String) (df : List (Row α)) (st : TState α M) :
    Artifacts α × TState α M :=
  let artifacts := (get_artifacts st.store dataset_id).getD defaultArtifacts
  if artifacts.trained ∧ artifacts.calibration.isSome then (artifacts, st)
  else
    let card_ids := _sample_card_ids chooseIds df
    let features_list := card_ids.map (fun cid =>
      (compute_features sqrt log2
        ((df.filter (fun r => decide (r.card_id = cid))).map (fun r => r.txn))).toDict)
    let calibration := fit_score_calibration features_list
    let pcache' := fit_profiler fitM choose st.pcache dataset_id features_list
    let scores := features_list.map (fun feats => (compute_score feats (some calibration)).1)
    let band_counts := scores.foldl (fun acc sc => bumpCount acc (get_risk_band sc)) []
    let cluster_counts := features_list.foldl (fun acc feats =>
      bumpCount acc
        (get_profile fitM choose predictM pcache' dataset_id feats none).1.profile_label) []
    let scores_arr := if scores = [] then [0] else scores
    let gi : Insights α := ⟨scores_arr.sum / (scores_arr.length : α),
      npPercentile 50 scores_arr, npPercentile 75 scores_arr, npPercentile 90 scores_arr,
      band_counts, cluster_counts⟩
    let aNew : Artifacts α := ⟨true, features_list.length, elapsed, some calibration, some gi⟩
    (aNew, ⟨set_artifacts st.store dataset_id aNew, pcache'⟩)

/-! ### Claim C3 — idempotence of the trained fast path -/

/-- Claim C3: if the stored artifacts for the dataset id are marked trained
and carry a calibration, `ensure_trained` returns exactly those artifacts and
leaves the whole state (artifacts store and profiler cache) unchanged, for
every dataframe passed — nothing is recomputed or reinstalled. -/
theorem C3_ensure_trained_idempotent {β : Type} [LinearOrderedField β] [FloorRing β]
    {M : Type} (sqrt log2 : β → β) (fitM : List (List β) → M)
    (choose : List (List β) → List (List β)) (predictM : M → List β → ℕ)
    (chooseIds : List String → List String) (elapsed : β) (dataset_id : String)
    (df : List (Row β)) (st : TState β M) (a : Artifacts β)
    (hget : get_artifacts st.store dataset_id = some a)
    (htr : a.trained = true) (hcal : a.calibration.isSome = true) :
    ensure_trained sqrt log2 fitM choose predictM chooseIds elapsed dataset_id df st =
      (a, st) := by
  unfold ensure_trained
  rw [hget]
  show (if a.trained ∧ a.calibration.isSome then _ else _) = _
  rw [if_pos ⟨htr, hcal⟩]
  rfl

/-- Claim C3 (witness): the fast path at a concrete trained store. -/
theorem C3_ensure_trained_idempotent_witness :
    get_artifacts [("d", (⟨true, 1, 0, some ⟨5, 20, 3, 4, 10⟩, none⟩ : Artifacts ℚ))] "d" =
        some ⟨true, 1, 0, some ⟨5, 20, 3, 4, 10⟩, none⟩ ∧
    (⟨true, 1, 0, some ⟨5, 20, 3, 4, 10⟩, none⟩ : Artifacts ℚ).trained = true ∧
    (⟨true, 1, 0, some ⟨5, 20, 3, 4, 10⟩, none⟩ : Artifacts ℚ).calibration.isSome = true ∧
    ensure_trained (fun _ => 0) (fun _ => 0) (fun _ => ()) id (fun _ _ => 0) id 0 "d"
        ([] : List (Row ℚ))
        ⟨[("d", ⟨true, 1, 0, some ⟨5, 20, 3, 4, 10⟩, none⟩)], []⟩ =
      (⟨true, 1, 0, some ⟨5, 20, 3, 4, 10⟩, none⟩,
       ⟨[("d", ⟨true, 1, 0, some ⟨5, 20, 3, 4, 10⟩, none⟩)], []⟩) :=
  ⟨rfl, rfl, rfl,
    C3_ensure_trained_idempotent (fun _ => 0) (fun _ => 0) (fun _ => ()) id
      (fun _ _ => 0) id 0 "d" [] _ _ rfl rfl rfl⟩

/-! ### Claim C4 — atomicity of training with respect to errors

`ensure_trainedE` is `ensure_trained` with every pipeline step allowed to
raise (`Except String`), mirroring the Python call sequence: sampling, the
per-user feature-extraction loop, the calibration fit, the profiler fit
(which may update the profiler cache), the per-user scoring and profiling of
the insight loop, and the `np.percentile` calls of the insight summary.  The
artifacts store is written only by the final `set_artifacts`. -/

/-- `ensure_trained` with fallible steps; on an exception the error propagates
and the state carries whatever the already-completed steps did (only the
profiler fit touches state before the final install). -/
def ensure_trainedE {M : Type} (sampleE : List (Row α) → Except String (List String))
    (featuresE : List (Txn α) → Except String (FeatureDict α))
    (calibE : List (FeatureDict α) → Except String (Calibration α))
    (profFitE : List (String × M) → String → List (FeatureDict α) →
      Except String (List (String × M)))
    (scoreE : FeatureDict α → Calibration α → Except String α)
    (profileE : List (String × M) → String → FeatureDict α → Except String String)
    (pctE : List α → α → Except String α) (elapsed : α) (dataset_id : String)
    (df : List (Row α)) (st : TState α M) :
    Except String (Artifacts α) × TState α M :=
  if ((get_artifacts st.store dataset_id).getD defaultArtifacts).trained ∧
      ((get_artifacts st.store dataset_id).getD defaultArtifacts).calibration.isSome then
    (.ok ((get_artifacts st.store dataset_id).getD defaultArtifacts), st)
  else
    match sampleE df with
    | .error e => (.error e, st)
    | .ok card_ids =>
      match card_ids.mapM (fun cid =>
          featuresE ((df.filter (fun r => decide (r.card_id = cid))).map
            (fun r => r.txn))) with
      | .error e => (.error e, st)
      | .ok features_list =>
        match calibE features_list with
        | .error e => (.error e, st)
        | .ok calibration =>
          match profFitE st.pcache dataset_id features_list with
          | .error e => (.error e, st)
          | .ok pcache' =>
            match features_list.mapM (fun feats => scoreE feats calibration) with
            | .error e => (.error e, ⟨st.store, pcache'⟩)
            | .ok scores =>
              match features_list.mapM (fun feats =>
                  profileE pcache' dataset_id feats) with
              | .error e => (.error e, ⟨st.store, pcache'⟩)
              | .ok labels =>
                match pctE (if scores = [] then [0] else scores) 50,
                    pctE (if scores = [] then [0] else scores) 75,
                    pctE (if scores = [] then [0] else scores) 90 with
                | .error e, _, _ => (.error e, ⟨st.store, pcache'⟩)
                | _, .error e, _ => (.error e, ⟨st.store, pcache'⟩)
                | _, _, .error e => (.error e, ⟨st.store, pcache'⟩)
                | .ok p50, .ok p75, .ok p90 =>
                  let scores_arr := if scores = [] then [0] else scores
                  let band_counts :=
                    scores.foldl (fun acc sc => bumpCount acc (get_risk_band sc)) []
                  let cluster_counts := labels.foldl (fun acc lb => bumpCount acc lb) []
                  let gi : Insights α := ⟨scores_arr.sum / (scores_arr.length : α),
                    p50, p75, p90, band_counts, cluster_counts⟩
                  let aNew : Artifacts α :=
                    ⟨true, features_list.length, elapsed, some calibration, some gi⟩
                  (.ok aNew, ⟨set_artifacts st.store dataset_id aNew, pcache'⟩)

/-- Claim C4: training is atomic with respect to errors — whenever any step of
the orchestration raises, the returned state's artifacts store is exactly the
prior store (a partial record is never installed; `set_artifacts` runs only as
the single final step after all fields are computed). -/
theorem C4_training_atomic {β : Type} [LinearOrderedField β] {M : Type}
    (sampleE : List (Row β) → Except String (List String))
    (featuresE : List (Txn β) → Except String (FeatureDict β))
    (calibE : List (FeatureDict β) → Except String (Calibration β))
    (profFitE : List (String × M) → String → List (FeatureDict β) →
      Except String (List (String × M)))
    (scoreE : FeatureDict β → Calibration β → Except String β)
    (profileE : List (String × M) → String → FeatureDict β → Except String String)
    (pctE : List β → β → Except String β) (elapsed : β) (dataset_id : String)
    (df : List (Row β)) (st : TState β M) (e : String) (st' : TState β M)
    (h : ensure_trainedE sampleE featuresE calibE profFitE scoreE profileE pctE
        elapsed dataset_id df st = (.error e, st')) :
    st'.store = st.store := by
  have key : (ensure_trainedE sampleE featuresE calibE profFitE scoreE profileE pctE
        elapsed dataset_id df st).2.store = st.store ∨
      ∃ a, (ensure_trainedE sampleE featuresE calibE profFitE scoreE profileE pctE
        elapsed dataset_id df st).1 = Except.ok a := by
    unfold ensure_trainedE
    repeat'
      first
        | exact Or.inl rfl
        | exact Or.inr ⟨_, rfl⟩
        | split
  rw [h] at key
  rcases key with hstore | ⟨a, hok⟩
  · exact hstore
  · exact Except.noConfusion hok

/-- Claim C4 (witness): a failing sampling step at a concrete state leaves the
store untouched. -/
theorem C4_training_atomic_witness :
    ensure_trainedE (α := ℚ) (M := Unit) (fun _ => .error "boom")
        (fun _ => .ok fdNone) (fun _ => .ok ⟨5, 20, 3, 4, 10⟩) (fun c _ _ => .ok c)
        (fun _ _ => .ok 0) (fun _ _ _ => .ok "Steady spender") (fun _ _ => .ok 0)
        0 "d" [] ⟨[], []⟩ = (.error "boom", ⟨[], []⟩) ∧
    (⟨[], []⟩ : TState ℚ Unit).store = (⟨[], []⟩ : TState ℚ Unit).store :=
  ⟨rfl,
    C4_training_atomic (fun _ => .error "boom") (fun _ => .ok fdNone)
      (fun _ => .ok ⟨5, 20, 3, 4, 10⟩) (fun c _ _ => .ok c) (fun _ _ => .ok 0)
      (fun _ _ _ => .ok "Steady spender") (fun _ _ => .ok 0) 0 "d" [] ⟨[], []⟩
      "boom" ⟨[], []⟩ rfl⟩

/-! ### Claim C6 — the spike_intensity formula -/

lemma mem_firstDedup {γ : Type} [DecidableEq γ] {a : γ} :
    ∀ {l : List γ}, a ∈ firstDedup l ↔ a ∈ l := by
  intro l
  induction l with
  | nil => simp [firstDedup]
  | cons b l ih =>
    show a ∈ b :: (firstDedup l).filter (fun x => decide (x ≠ b)) ↔ a ∈ b :: l
    by_cases hab : a = b
    · subst hab
      simp
    · simp [List.mem_filter, ih, hab]

lemma nodup_firstDedup {γ : Type} [DecidableEq γ] : ∀ (l : List γ), (firstDedup l).Nodup := by
  intro l
  induction l with
  | nil => simp [firstDedup]
  | cons b l ih =>
    show (b :: (firstDedup l).filter (fun x => decide (x ≠ b))).Nodup
    rw [List.nodup_cons]
    refine ⟨fun hmem => ?_, List.Nodup.filter _ ih⟩
    have := (List.mem_filter.mp hmem).2
    simp at this

lemma firstDedup_sublist {γ : Type} [DecidableEq γ] : ∀ (l : List γ),
    (firstDedup l).Sublist l := by
  intro l
  induction l with
  | nil => simp [firstDedup]
  | cons b l ih =>
    show (b :: (firstDedup l).filter (fun x => decide (x ≠ b))).Sublist (b :: l)
    exact List.Sublist.cons₂ b ((List.filter_sublist _).trans ih)

lemma epochDay_mono {a b : ℤ} (h : a ≤ b) : epochDay a ≤ epochDay b := by
  unfold epochDay
  rw [Int.fdiv_eq_ediv _ (by norm_num), Int.fdiv_eq_ediv _ (by norm_num)]
  exact Int.ediv_le_ediv (by norm_num) h

lemma sortByDate_sorted (txns : List (Txn α)) :
    List.Sorted (fun a b : Txn α => a.ts ≤ b.ts) (sortByDate txns) := by
  haveI : IsTotal (Txn α) (fun a b => a.ts ≤ b.ts) := ⟨fun a b => Int.le_total a.ts b.ts⟩
  haveI : IsTrans (Txn α) (fun a b => a.ts ≤ b.ts) := ⟨fun a b c hab hbc => le_trans hab hbc⟩
  exact List.sorted_insertionSort _ txns

/-- The spec's per-calendar-day grouping keys, written independently of the
feature extractor: the distinct calendar days of the (unsorted) transaction
list, sorted ascending. -/
def sortedDistinctDays (txns : List (Txn α)) : List ℤ :=
  (firstDedup (txns.map (fun t => epochDay t.ts))).mergeSort (fun a b => decide (a ≤ b))

/-- The spec's per-day transaction counts over `sortedDistinctDays`. -/
def dailyCountsSpec (txns : List (Txn α)) : List α :=
  (sortedDistinctDays txns).map
    (fun d => ((txns.countP (fun t => decide (epochDay t.ts = d)) : ℕ) : α))

/-- The spec's per-day total (absolute) spend over `sortedDistinctDays`. -/
def dailySpendsSpec (txns : List (Txn α)) : List α :=
  (sortedDistinctDays txns).map (fun d =>
    ((txns.filter (fun t => decide (epochDay t.ts = d))).map (fun t => |t.amount|)).sum)

/-- The claim's spike formula, amended to the ddof = 1 *sample* standard
deviation that `pandas.Series.std` actually computes: fewer than 2 distinct
days gives 0, else the larger of the two maximum absolute z-scores. -/
def spikeSpecSample (sqrt : α → α) (txns : List (Txn α)) : α :=
  if (sortedDistinctDays txns).length < 2 then 0
  else max (zmaxSample sqrt (dailyCountsSpec txns)) (zmaxSample sqrt (dailySpendsSpec txns))

/-- Modelled from the spec: the claim's spike formula as stated, with the
*population* standard deviation `sqrt(Σ (x - mean)² / n)` plus the epsilon —
the formula claim C6 asserts the code computes. -/
def zmaxPop (sqrt : α → α) (xs : List α) : α :=
  let μ := xs.sum / (xs.length : α)
  let σ := sqrt ((xs.map (fun x => (x - μ) ^ 2)).sum / (xs.length : α))
  ((xs.map (fun x => |(x - μ) / (σ + eps10)|)).foldr max 0)

/-- Modelled from the spec: claim C6's full spike formula (population
mean/std with the small epsilon; 0 for fewer than 2 distinct days). -/
def spikeSpecPop (sqrt : α → α) (txns : List (Txn α)) : α :=
  if (sortedDistinctDays txns).length < 2 then 0
  else max (zmaxPop sqrt (dailyCountsSpec txns)) (zmaxPop sqrt (dailySpendsSpec txns))

lemma daysOf_sortByDate (txns : List (Txn α)) :
    daysOf (sortByDate txns) = sortedDistinctDays txns := by
  have h1 : List.Sorted (· ≤ ·) (daysOf (sortByDate txns)) := by
    have hmap : List.Sorted (· ≤ ·) ((sortByDate txns).map (fun t => epochDay t.ts)) :=
      List.Pairwise.map _ (fun a b hab => epochDay_mono hab) (sortByDate_sorted txns)
    exact List.Pairwise.sublist (firstDedup_sublist _) hmap
  have h2 : List.Sorted (· ≤ ·) (sortedDistinctDays txns) := by
    have hp := @List.sorted_mergeSort ℤ
      (fun a b : ℤ => decide (a ≤ b))
      (fun a b c hab hbc => by
        simp only [decide_eq_true_eq] at hab hbc ⊢
        exact le_trans hab hbc)
      (fun a b => by
        simp only [Bool.or_eq_true, decide_eq_true_eq]
        exact le_total a b) (firstDedup (txns.map (fun t => epochDay t.ts)))
    exact hp.imp (fun h => by simpa using h)
  have hperm : (daysOf (sortByDate txns)).Perm (sortedDistinctDays txns) := by
    have hnd1 : (daysOf (sortByDate txns)).Nodup := nodup_firstDedup _
    have hnd2 : (sortedDistinctDays txns).Nodup :=
      ((List.mergeSort_perm _ _).nodup_iff).mpr (nodup_firstDedup _)
    rw [List.perm_ext_iff_of_nodup hnd1 hnd2]
    intro d
    rw [daysOf, mem_firstDedup, sortedDistinctDays, (List.mergeSort_perm _ _).mem_iff,
      mem_firstDedup]
    exact ((sortByDate_perm txns).map _).mem_iff
  exact List.eq_of_perm_of_sorted hperm h1 h2

lemma dailyCounts_sortByDate (txns : List (Txn α)) :
    dailyCountsOf (sortByDate txns) = dailyCountsSpec txns := by
  unfold dailyCountsOf dailyCountsSpec
  rw [daysOf_sortByDate]
  exact List.map_congr_left
    (fun d _ => by rw [List.Perm.countP_eq _ (sortByDate_perm txns)])

lemma dailySpends_sortByDate (txns : List (Txn α)) :
    dailySpendsOf (sortByDate txns) = dailySpendsSpec txns := by
  unfold dailySpendsOf dailySpendsSpec
  rw [daysOf_sortByDate]
  exact List.map_congr_left
    (fun d _ => List.Perm.sum_eq (((sortByDate_perm txns).filter _).map _))

lemma spikeOf_eq_spec (sqrt : α → α) (txns : List (Txn α)) :
    spikeOf sqrt (sortByDate txns) = spikeSpecSample sqrt txns := by
  unfold spikeOf spikeSpecSample
  rw [daysOf_sortByDate, dailyCounts_sortByDate, dailySpends_sortByDate]

/-- Claim C6 (amended): for every transaction list, `spike_intensity` equals
the larger of the two maximum absolute z-scores over the per-calendar-day
transaction counts and total spends, where each z-score divides by the
*sample* (ddof = 1, pandas default) standard deviation plus `1e-10` — not the
population standard deviation the claim states — and is `0` with fewer than 2
distinct days. -/
theorem C6_spike_formula {β : Type} [LinearOrderedField β] (sqrt log2 : β → β)
    (txns : List (Txn β)) :
    (compute_features sqrt log2 txns).spike_intensity = spikeSpecSample sqrt txns := by
  by_cases h : txns = []
  · subst h
    show (0 : β) = spikeSpecSample sqrt []
    have hd : sortedDistinctDays ([] : List (Txn β)) = [] := by
      simp [sortedDistinctDays, firstDedup]
    unfold spikeSpecSample
    rw [hd, if_pos (by norm_num : ([] : List ℤ).length < 2)]
  · rw [compute_features_ne _ _ h]
    exact spikeOf_eq_spec sqrt txns

/-- The C6 counterexample input: one transaction on epoch day 0, three on
day 1, all of amount 0 — daily counts `[1, 3]`, daily spends `[0, 0]`. -/
def txns4R : List (Txn ℝ) :=
  [⟨0, 0, "A"⟩, ⟨86400, 0, "A"⟩, ⟨86460, 0, "A"⟩, ⟨86520, 0, "A"⟩]

lemma txns4R_days : sortedDistinctDays txns4R = [0, 1] := by
  unfold sortedDistinctDays
  rw [← insertionSort_eq_mergeSort]
  decide

lemma txns4R_counts : dailyCountsSpec txns4R = [(1 : ℝ), 3] := by
  unfold dailyCountsSpec
  rw [txns4R_days]
  rw [List.map_cons, List.map_cons, List.map_nil]
  rw [show txns4R.countP (fun t => decide (epochDay t.ts = 0)) = 1 from by decide,
    show txns4R.countP (fun t => decide (epochDay t.ts = 1)) = 3 from by decide]
  norm_num

lemma txns4R_spends : dailySpendsSpec txns4R = [(0 : ℝ), 0] := by
  unfold dailySpendsSpec
  rw [txns4R_days]
  rw [List.map_cons, List.map_cons, List.map_nil]
  have hz : ∀ d : ℤ,
      ((txns4R.filter (fun t => decide (epochDay t.ts = d))).map (fun t => |t.amount|)).sum
        = 0 := by
    intro d
    apply List.sum_eq_zero
    intro x hx
    obtain ⟨t, ht, rfl⟩ := List.mem_map.mp hx
    have hmem := (List.mem_filter.mp ht).1
    have hz : t.amount = 0 := by fin_cases hmem <;> rfl
    rw [hz, abs_zero]
  rw [hz 0, hz 1]

lemma eps10R_pos : (0:ℝ) < eps10 := eps10_pos

lemma zmaxSample_13 : zmaxSample Real.sqrt [(1 : ℝ), 3] = 1 / (Real.sqrt 2 + eps10) := by
  have hpos : (0:ℝ) < Real.sqrt 2 + eps10 := by
    have h1 := Real.sqrt_nonneg 2
    have h2 := eps10R_pos
    linarith
  unfold zmaxSample
  simp only [List.length_cons, List.length_nil, List.sum_cons, List.sum_nil,
    List.map_cons, List.map_nil, List.foldr_cons, List.foldr_nil]
  norm_num
  rw [abs_div, abs_neg, abs_one, abs_of_pos hpos, abs_inv, abs_of_pos hpos, one_div,
    max_self]

lemma zmaxSample_00 : zmaxSample Real.sqrt [(0 : ℝ), 0] = 0 := by
  unfold zmaxSample
  simp only [List.length_cons, List.length_nil, List.sum_cons, List.sum_nil,
    List.map_cons, List.map_nil, List.foldr_cons, List.foldr_nil]
  norm_num [Real.sqrt_zero]

lemma zmaxPop_13 : zmaxPop Real.sqrt [(1 : ℝ), 3] = 1 / (1 + eps10) := by
  have hpos : (0:ℝ) < 1 + eps10 := by
    have h2 := eps10R_pos
    linarith
  unfold zmaxPop
  simp only [List.length_cons, List.length_nil, List.sum_cons, List.sum_nil,
    List.map_cons, List.map_nil, List.foldr_cons, List.foldr_nil]
  norm_num [Real.sqrt_one]
  rw [abs_div, abs_neg, abs_one, abs_of_pos hpos, abs_inv, abs_of_pos hpos, one_div,
    max_self]

lemma zmaxPop_00 : zmaxPop Real.sqrt [(0 : ℝ), 0] = 0 := by
  unfold zmaxPop
  simp only [List.length_cons, List.length_nil, List.sum_cons, List.sum_nil,
    List.map_cons, List.map_nil, List.foldr_cons, List.foldr_nil]
  norm_num [Real.sqrt_zero]

/-- Claim C6 (counterexample): with daily counts `[1, 3]` and all amounts 0,
the code's `spike_intensity` is `1 / (√2 + 1e-10)` — pandas' ddof = 1 sample
standard deviation of the counts is `√2` — while the claim's population
standard deviation is `1`, giving `1 / (1 + 1e-10)`; the two differ. -/
theorem C6_counterexample :
    (compute_features Real.sqrt (fun _ => 0) txns4R).spike_intensity ≠
      spikeSpecPop Real.sqrt txns4R := by
  have hpos2 : (0:ℝ) < Real.sqrt 2 + eps10 := by
    have h1 := Real.sqrt_nonneg 2
    have h2 := eps10R_pos
    linarith
  have hpos1 : (0:ℝ) < 1 + eps10 := by
    have h2 := eps10R_pos
    linarith
  have hL : (compute_features Real.sqrt (fun _ => 0) txns4R).spike_intensity =
      1 / (Real.sqrt 2 + eps10) := by
    rw [compute_features_ne _ _ (by unfold txns4R; exact List.cons_ne_nil _ _)]
    show spikeOf Real.sqrt (sortByDate txns4R) = _
    rw [spikeOf_eq_spec]
    unfold spikeSpecSample
    rw [txns4R_days, if_neg (by decide), txns4R_counts, txns4R_spends,
      zmaxSample_13, zmaxSample_00]
    exact max_eq_left (div_nonneg zero_le_one (le_of_lt hpos2))
  have hR : spikeSpecPop Real.sqrt txns4R = 1 / (1 + eps10) := by
    unfold spikeSpecPop
    rw [txns4R_days, if_neg (by decide), txns4R_counts, txns4R_spends,
      zmaxPop_13, zmaxPop_00]
    exact max_eq_left (div_nonneg zero_le_one (le_of_lt hpos1))
  rw [hL, hR]
  intro heq
  have hs2 : (1:ℝ) < Real.sqrt 2 :=
    (Real.lt_sqrt zero_le_one).mpr (by norm_num)
  have hcross := (div_eq_div_iff (ne_of_gt hpos2) (ne_of_gt hpos1)).mp heq
  linarith

end Spendly
